import Mathlib

/-!
Shallow embedding of the `data_blocks` crate's data-integrity core
(`src/data/structured_data.rs`, `src/data/data.rs`, `src/data/mod.rs`).

Machine integers (`u64`, `usize`) are modelled as `Nat`; byte sequences
(`Vec<u8>`, `[u8; 32]`) as `List Nat`.  Rust's `usize::saturating_sub`
coincides with truncated `Nat` subtraction.  The external cryptographic
and codec primitives (rust_sodium signatures, tiny_keccak SHA3-256,
maidsafe serialisation) are consumed, not implemented, by the crate; they
are modelled here as idealised total functions: signatures are records
pairing the signing key with the signed payload (so verification is exact
equality checking), serialisation is an injective total encoding, and the
hash is an injective function (idealising collision-freeness).  All the
claims under study concern the crate's own counting, dispatch and
state-transition logic, which is embedded verbatim below.
-/

namespace DataBlocks

/-- Modelled from the spec: public keys of the external signature primitive
(`rust_sodium::crypto::sign::PublicKey`), abstracted to `Nat`. -/
abbrev PublicKey := Nat

/-- Modelled from the spec: secret keys of the external signature primitive
(`rust_sodium::crypto::sign::SecretKey`), abstracted to `Nat`. -/
abbrev SecretKey := Nat

/-- Modelled from the spec: the public key corresponding to a secret key
(the keypair relation of `gen_keypair`), idealised as the identity. -/
def pk_of (sk : SecretKey) : PublicKey := sk

/-- Mirror of `SerialisableStructuredData` (structured_data.rs lines 254-262):
the canonical signing payload, carrying `type_tag` and `version` as their
decimal text representation and the four remaining fields verbatim.
The external `serialise` call applied to this struct is modelled as the
identity (an injective deterministic encoding), so the payload type IS this
struct. -/
structure SerialisableStructuredData where
  type_tag : List Nat
  name : List Nat
  data : List Nat
  previous_owner_keys : List PublicKey
  current_owner_keys : List PublicKey
  version : List Nat
deriving DecidableEq, Repr

/-- Modelled from the spec: a detached signature of the external signature
primitive (`rust_sodium::crypto::sign::Signature`).  Idealised as the pair
of the signer's public key and the signed payload, so that two signatures
are byte-identical iff they have equal components, and verification is
exact. -/
structure Signature where
  signer : PublicKey
  signed : SerialisableStructuredData
deriving DecidableEq, Repr

/-- Modelled from the spec: `sign::sign_detached(&data, secret_key)`. -/
def sign_detached (data : SerialisableStructuredData) (secret_key : SecretKey) :
    Signature :=
  { signer := pk_of secret_key, signed := data }

/-- Modelled from the spec: `sign::verify_detached(&sig, &data, pub_key)` —
true iff `sig` is a signature over exactly `data` by the holder of
`pub_key`. -/
def verify_detached (sig : Signature) (data : SerialisableStructuredData)
    (pub_key : PublicKey) : Bool :=
  sig.signer == pub_key && sig.signed == data

/-- Mirror of the crate's `Error` enum (consumed from the `error` module):
the three variants the core produces. -/
inductive Error where
  | signature
  | validation
  | serialisation
deriving DecidableEq, Repr

/-- Mirror of `MAX_BYTES` (structured_data.rs line 25): "Maximum allowed
size for a Structured Data to grow to". -/
def MAX_BYTES : Nat := 102400

/-- Mirror of `struct StructuredData` (structured_data.rs lines 34-43),
fields in source order. -/
structure StructuredData where
  type_tag : Nat
  name : List Nat
  data : List Nat
  previous_owner_keys : List PublicKey
  version : Nat
  current_owner_keys : List PublicKey
  previous_owner_signatures : List Signature
  ledger : Bool
deriving DecidableEq, Repr

/-- Decimal text representation of an integer, as bytes: mirror of
`n.to_string().as_bytes().to_vec()` in `data_to_sign`. -/
def decimalBytes (n : Nat) : List Nat :=
  (Nat.toDigits 10 n).map Char.toNat

namespace StructuredData

/-- Mirror of `data_to_sign` (structured_data.rs lines 169-182): build the
`SerialisableStructuredData` view and serialise it.  The external
`serialise` is modelled as the injective identity encoding and hence total,
so the `Result` is always `Ok`; the `Except` wrapper mirrors the source's
`Result<Vec<u8>, Error>` type. -/
def data_to_sign (self : StructuredData) :
    Except Error SerialisableStructuredData :=
  .ok { type_tag := decimalBytes self.type_tag
        name := self.name
        data := self.data
        previous_owner_keys := self.previous_owner_keys
        current_owner_keys := self.current_owner_keys
        version := decimalBytes self.version }

/-- Mirror of the duplicate scan opening `verify_previous_owner_signatures`
(structured_data.rs lines 139-145): the nested loop compares every
signature with every earlier one and trips on any byte-identical pair;
this recursion checks every signature against every later one, which finds
a duplicate exactly when the source's loop does. -/
def hasDuplicateSignature : List Signature → Bool
  | [] => false
  | sig :: rest => rest.contains sig || hasDuplicateSignature rest

/-- Mirror of the `owner_keys_to_match` let-binding in
`validate_self_against_successor` (structured_data.rs lines 120-124); the
same selection (`previous_owner_keys` if non-empty, else
`current_owner_keys`) is re-made on `self` inside `add_signature`
(lines 191-195). -/
def owner_keys_to_match (sd : StructuredData) : List PublicKey :=
  if sd.previous_owner_keys.isEmpty then sd.current_owner_keys
  else sd.previous_owner_keys

/-- Mirror of `verify_previous_owner_signatures` (structured_data.rs lines
136-167): reject on any byte-identical duplicate; reject when fewer than
`(N + 1) / 2` signatures are present; then count the signatures that
verify against the canonical payload under some key of `owner_keys` and
reject when that count is below `N / 2 + N % 2`. -/
def verify_previous_owner_signatures (self : StructuredData)
    (owner_keys : List PublicKey) : Except Error Unit :=
  if hasDuplicateSignature self.previous_owner_signatures then
    .error .validation
  else if self.previous_owner_signatures.length < (owner_keys.length + 1) / 2 then
    .error .validation
  else
    match self.data_to_sign with
    | .error e => .error e
    | .ok data =>
      if (self.previous_owner_signatures.filter
            (fun sig => owner_keys.any (fun pub_key => verify_detached sig data pub_key))).length
          < (owner_keys.length / 2 + owner_keys.length % 2) then
        .error .validation
      else
        .ok ()

/-- Mirror of `validate_self_against_successor` (structured_data.rs lines
119-133). -/
def validate_self_against_successor (self other : StructuredData) :
    Except Error Unit :=
  if other.type_tag ≠ self.type_tag ∨ other.name ≠ self.name ∨
      other.version ≠ self.version + 1 ∨
      owner_keys_to_match other ≠ self.current_owner_keys then
    .error .signature
  else
    other.verify_previous_owner_signatures (owner_keys_to_match other)

/-- Mirror of `add_signature` (structured_data.rs lines 187-197): sign the
canonical payload, push the signature, and return
`(N / 2 + 1).saturating_sub(len)` where `N` is the size of the authorizing
quorum and `len` the signature count after the push (`Nat` subtraction is
saturating).  The post-state is returned alongside, standing for the
mutation of `&mut self`. -/
def add_signature (self : StructuredData) (secret_key : SecretKey) :
    Except Error (Nat × StructuredData) :=
  match self.data_to_sign with
  | .error e => .error e
  | .ok data =>
    let sig := sign_detached data secret_key
    let pushed := { self with
      previous_owner_signatures := self.previous_owner_signatures ++ [sig] }
    .ok ((owner_keys_to_match self).length / 2 + 1 -
           pushed.previous_owner_signatures.length,
         pushed)

/-- Mirror of `StructuredData::new` (structured_data.rs lines 48-73): build
the record with an empty signature list, then sign once when a signing key
is supplied. -/
def new (type_tag : Nat) (name : List Nat) (version : Nat) (data : List Nat)
    (current_owner_keys : List PublicKey)
    (previous_owner_keys : List PublicKey)
    (signing_key : Option SecretKey) (ledger : Bool) :
    Except Error StructuredData :=
  let structured_data : StructuredData :=
    { type_tag := type_tag
      name := name
      data := data
      previous_owner_keys := previous_owner_keys
      version := version
      current_owner_keys := current_owner_keys
      previous_owner_signatures := []
      ledger := ledger }
  match signing_key with
  | none => .ok structured_data
  | some key =>
    match structured_data.add_signature key with
    | .error e => .error e
    | .ok (_, sd) => .ok sd

/-- Mirror of `replace_with_other` (structured_data.rs lines 81-92): the
pair is the post-state of `&mut self` together with the returned `Result`.
Validation runs first; on error `self` is returned untouched; on success
the seven listed fields are overwritten with `other`'s and `ledger` is
left as it was. -/
def replace_with_other (self other : StructuredData) :
    StructuredData × Except Error Unit :=
  match self.validate_self_against_successor other with
  | .error e => (self, .error e)
  | .ok () =>
    ({ type_tag := other.type_tag
       name := other.name
       data := other.data
       previous_owner_keys := other.previous_owner_keys
       version := other.version
       current_owner_keys := other.current_owner_keys
       previous_owner_signatures := other.previous_owner_signatures
       ledger := self.ledger },
     .ok ())

/-- Mirror of `replace_signatures` (structured_data.rs lines 200-202):
unconditional overwrite of the signature list. -/
def replace_signatures (self : StructuredData)
    (new_signatures : List Signature) : StructuredData :=
  { self with previous_owner_signatures := new_signatures }

/-- Mirror of `payload_size` (structured_data.rs lines 235-237). -/
def payload_size (self : StructuredData) : Nat :=
  self.data.length

end StructuredData

/-- Mirror of `enum DataIdentifier` (data.rs lines 68-75, the three-variant
form; mod.rs lines 83-88 carries the same `Structured`/`Immutable` arms
without `Plain`). -/
inductive DataIdentifier where
  | Structured (name : List Nat) (tag : Nat)
  | Immutable (name : List Nat)
  | Plain (name : List Nat)
deriving DecidableEq, Repr

/-- Modelled from the spec: the external general serialisation codec
applied to a `u64` tag (`serialise(tag)` in `local_name`), idealised as an
injective total encoding to bytes.  The source can fail here
(`try!(serialise(tag))`); the total model makes the failure branch
unreachable, matching the spec's "fails only if tag encoding fails". -/
def serialise_tag (tag : Nat) : Except Error (List Nat) :=
  .ok [tag]

/-- Modelled from the spec: the external 256-bit hash primitive
(`tiny_keccak` SHA3-256) run over a byte sequence, idealised as an
injective function (collision-freeness of the cryptographic hash). -/
def sha3_256 (input : List Nat) : List Nat :=
  input

/-- Mirror of `DataIdentifier::local_name` (data.rs lines 97-114; mod.rs
lines 109-121 is the same minus the `Plain` arm): for `Structured`, hash
the name concatenated with the serialised tag; for `Immutable` and
`Plain`, the stored name itself. -/
def DataIdentifier.local_name : DataIdentifier → Except Error (List Nat)
  | .Structured name tag =>
    match serialise_tag tag with
    | .error e => .error e
    | .ok enc => .ok (sha3_256 (name ++ enc))
  | .Immutable name => .ok name
  | .Plain name => .ok name

/-! ## Concrete instances used by the witnesses and counterexamples -/

open StructuredData

/-- Canonical payload of `c1_sd` (four-owner quorum, version 0, no data). -/
def c1_payload : SerialisableStructuredData :=
  { type_tag := decimalBytes 0, name := [], data := [],
    previous_owner_keys := [], current_owner_keys := [0, 1, 2, 3],
    version := decimalBytes 0 }

/-- A four-key quorum. -/
def c1_keys : List PublicKey := [0, 1, 2, 3]

/-- A record carrying exactly two distinct valid signatures (by keys 0 and
1) over its own canonical payload, against the four-key quorum. -/
def c1_sd : StructuredData :=
  { type_tag := 0, name := [], data := [], previous_owner_keys := [],
    version := 0, current_owner_keys := [0, 1, 2, 3],
    previous_owner_signatures :=
      [{ signer := 0, signed := c1_payload },
       { signer := 1, signed := c1_payload }],
    ledger := false }

/-- A predecessor record at version 4 with empty owner lists. -/
def c3_pred : StructuredData :=
  { type_tag := 1, name := [9], data := [], previous_owner_keys := [],
    version := 4, current_owner_keys := [], previous_owner_signatures := [],
    ledger := false }

/-- A candidate whose version jumps from 4 to 9 (delta larger than 1). -/
def c3_bad : StructuredData :=
  { type_tag := 1, name := [9], data := [], previous_owner_keys := [],
    version := 9, current_owner_keys := [], previous_owner_signatures := [],
    ledger := false }

/-- A candidate with matching tag, name, quorum identity and version 5. -/
def c3_good : StructuredData :=
  { type_tag := 1, name := [9], data := [2], previous_owner_keys := [],
    version := 5, current_owner_keys := [], previous_owner_signatures := [],
    ledger := false }

/-- A predecessor record used by the C4 witness. -/
def c4_pred : StructuredData :=
  { type_tag := 1, name := [9], data := [3], previous_owner_keys := [],
    version := 4, current_owner_keys := [7], previous_owner_signatures := [],
    ledger := true }

/-- An invalid candidate for `c4_pred` (wrong version step). -/
def c4_bad : StructuredData :=
  { type_tag := 1, name := [9], data := [4], previous_owner_keys := [],
    version := 4, current_owner_keys := [7], previous_owner_signatures := [],
    ledger := false }

/-- An arbitrary signature value. -/
def c5_sig : Signature :=
  { signer := 0,
    signed := { type_tag := [], name := [], data := [],
                previous_owner_keys := [], current_owner_keys := [],
                version := [] } }

/-- A record whose signature list holds the same signature twice. -/
def c5_sd : StructuredData :=
  { type_tag := 0, name := [], data := [], previous_owner_keys := [],
    version := 0, current_owner_keys := [0],
    previous_owner_signatures := [c5_sig, c5_sig], ledger := false }

/-- Canonical payload of `c6_sd` (three-owner quorum). -/
def c6_p : SerialisableStructuredData :=
  { type_tag := decimalBytes 0, name := [], data := [],
    previous_owner_keys := [], current_owner_keys := [10, 11, 12],
    version := decimalBytes 0 }

/-- An unsigned record owned by the three keys 10, 11, 12. -/
def c6_sd : StructuredData :=
  { type_tag := 0, name := [], data := [], previous_owner_keys := [],
    version := 0, current_owner_keys := [10, 11, 12],
    previous_owner_signatures := [], ledger := true }

/-- `c6_sd` after owner 10 has signed. -/
def c6_sd1 : StructuredData :=
  { c6_sd with previous_owner_signatures := [⟨10, c6_p⟩] }

/-- `c6_sd` after owners 10 and 11 have signed. -/
def c6_sd2 : StructuredData :=
  { c6_sd with previous_owner_signatures := [⟨10, c6_p⟩, ⟨11, c6_p⟩] }

/-- Canonical payload of `c8_other`. -/
def c8_payload : SerialisableStructuredData :=
  { type_tag := decimalBytes 0, name := [], data := [1],
    previous_owner_keys := [], current_owner_keys := [5],
    version := decimalBytes 1 }

/-- A stored predecessor owned by key 5, with the ledger flag set. -/
def c8_self : StructuredData :=
  { type_tag := 0, name := [], data := [], previous_owner_keys := [],
    version := 0, current_owner_keys := [5],
    previous_owner_signatures := [], ledger := true }

/-- A valid successor of `c8_self`, signed by key 5, with the ledger flag
clear. -/
def c8_other : StructuredData :=
  { type_tag := 0, name := [], data := [1], previous_owner_keys := [],
    version := 1, current_owner_keys := [5],
    previous_owner_signatures := [⟨5, c8_payload⟩], ledger := false }

/-- An arbitrary signature value, distinct from any over `c9_p`. -/
def c9_sig : Signature :=
  { signer := 9,
    signed := { type_tag := [], name := [], data := [],
                previous_owner_keys := [], current_owner_keys := [],
                version := [] } }

/-- A record owned by the single key 3. -/
def c9_a : StructuredData :=
  { type_tag := 2, name := [8], data := [7], previous_owner_keys := [],
    version := 3, current_owner_keys := [3],
    previous_owner_signatures := [], ledger := true }

/-- `c9_a` with a different signature list and ledger flag, agreeing with
it on the six signed fields. -/
def c9_b : StructuredData :=
  { c9_a with previous_owner_signatures := [c9_sig], ledger := false }

/-- Canonical payload of `c9_a`. -/
def c9_p : SerialisableStructuredData :=
  { type_tag := decimalBytes 2, name := [8], data := [7],
    previous_owner_keys := [], current_owner_keys := [3],
    version := decimalBytes 3 }

/-- `c9_a` after key 3 has signed. -/
def c9_a1 : StructuredData :=
  { c9_a with previous_owner_signatures := [⟨3, c9_p⟩] }

/-- A predecessor whose owner-key lists are all empty. -/
def c10_pred : StructuredData :=
  { type_tag := 0, name := [], data := [], previous_owner_keys := [],
    version := 0, current_owner_keys := [],
    previous_owner_signatures := [], ledger := false }

/-- The unsigned version-1 successor of `c10_pred`, with empty key lists. -/
def c10_succ : StructuredData :=
  { c10_pred with version := 1 }

/-! ## Theorems -/

/-- The duplicate scan of `verify_previous_owner_signatures` trips exactly
when the signature list is not duplicate-free. -/
theorem hasDuplicateSignature_iff_not_nodup (l : List Signature) :
    hasDuplicateSignature l = true ↔ ¬ l.Nodup := by
  induction l with
  | nil => simp [hasDuplicateSignature]
  | cons x xs ih =>
    simp [hasDuplicateSignature, ih, List.nodup_cons, List.contains,
      List.elem_eq_mem]
    tauto

/-- Claim C1 (refuted, code bug): the claim says a quorum of even size N
rejects a record carrying exactly N/2 distinct valid signatures, but on a
four-key quorum `verify_previous_owner_signatures` accepts `c1_sd`, which
carries exactly 2 distinct valid signatures — the code's threshold
`N / 2 + N % 2` is ceil(N/2), not a strict majority, for even N. -/
theorem c1_even_quorum_accepts_exactly_half :
    c1_sd.verify_previous_owner_signatures c1_keys = .ok () ∧
    c1_keys.length = 4 ∧
    c1_sd.previous_owner_signatures.Nodup ∧
    c1_sd.data_to_sign = .ok c1_payload ∧
    (c1_sd.previous_owner_signatures.filter
        (fun sig => c1_keys.any
          (fun pub_key => verify_detached sig c1_payload pub_key))).length
      = 2 ∧
    ¬ (2 * 2 > 4) :=
  ⟨rfl, rfl, by decide, rfl, by decide, by decide⟩

/-- Claim C2 (refuted, code bug): the claim says no operation yields a
record whose `data` exceeds `MAX_BYTES`, but `StructuredData.new` accepts
a payload of `MAX_BYTES + 1` bytes unchanged — no operation of the crate
ever consults `MAX_BYTES`. -/
theorem c2_new_accepts_oversized_data :
    StructuredData.new 0 [] 0 (List.replicate (MAX_BYTES + 1) 0) [] []
        none false
      = .ok { type_tag := 0, name := [],
              data := List.replicate (MAX_BYTES + 1) 0,
              previous_owner_keys := [], version := 0,
              current_owner_keys := [], previous_owner_signatures := [],
              ledger := false } ∧
    (List.replicate (MAX_BYTES + 1) (0 : Nat)).length > MAX_BYTES := by
  refine ⟨rfl, ?_⟩
  simp

/-- Claim C3: `validate_self_against_successor` returns the signature
error unless the candidate matches the predecessor's type tag and name,
steps the version by exactly 1 (any other delta, smaller or larger, is
rejected), and its quorum key list equals the predecessor's current owner
keys as an exact ordered sequence; when all four conditions hold the
result is exactly that of verifying the candidate's own signatures
against that quorum. -/
theorem c3_validate_successor_structural_gate (self other : StructuredData) :
    (¬ (other.type_tag = self.type_tag ∧ other.name = self.name ∧
        other.version = self.version + 1 ∧
        owner_keys_to_match other = self.current_owner_keys) →
      self.validate_self_against_successor other = .error .signature) ∧
    (other.version ≠ self.version + 1 →
      self.validate_self_against_successor other = .error .signature) ∧
    (other.type_tag = self.type_tag → other.name = self.name →
      other.version = self.version + 1 →
      owner_keys_to_match other = self.current_owner_keys →
      self.validate_self_against_successor other =
        other.verify_previous_owner_signatures (owner_keys_to_match other)) := by
  refine ⟨?_, ?_, ?_⟩
  · intro h
    unfold validate_self_against_successor
    split
    · rfl
    · next hn =>
      push_neg at hn
      exact absurd ⟨hn.1, hn.2.1, hn.2.2.1, hn.2.2.2⟩ h
  · intro h
    unfold validate_self_against_successor
    rw [if_pos (Or.inr (Or.inr (Or.inl h)))]
  · intro h1 h2 h3 h4
    unfold validate_self_against_successor
    rw [if_neg]
    push_neg
    exact ⟨h1, h2, h3, h4⟩

/-- Claim C3, witness: a candidate with a version jump of 5 is rejected
with the signature error, and a structurally matching candidate is
settled exactly by the quorum signature check. -/
theorem c3_witness :
    (c3_pred.validate_self_against_successor c3_bad = .error .signature) ∧
    (c3_pred.validate_self_against_successor c3_good =
      c3_good.verify_previous_owner_signatures (owner_keys_to_match c3_good)) :=
  ⟨(c3_validate_successor_structural_gate c3_pred c3_bad).2.1 (by decide),
   (c3_validate_successor_structural_gate c3_pred c3_good).2.2
     (by decide) (by decide) (by decide) (by decide)⟩

/-- Claim C4: whenever `replace_with_other` returns an error, the target
record (the first component of the returned pair, standing for the
post-state of `&mut self`) is exactly its pre-call value — validation
runs before any field is overwritten, so a failed call mutates nothing. -/
theorem c4_replace_with_other_error_frame (self other : StructuredData)
    (e : Error) (h : (self.replace_with_other other).2 = .error e) :
    (self.replace_with_other other).1 = self := by
  cases hv : self.validate_self_against_successor other with
  | error e' => simp [replace_with_other, hv]
  | ok u =>
    cases u
    simp [replace_with_other, hv] at h

/-- Claim C4, witness: feeding `c4_pred` the invalid candidate `c4_bad`
(same version instead of version + 1) leaves it untouched. -/
theorem c4_witness :
    (c4_pred.replace_with_other c4_bad).1 = c4_pred :=
  c4_replace_with_other_error_frame c4_pred c4_bad .signature rfl

/-- Claim C5: a signature list containing two byte-identical entries makes
`verify_previous_owner_signatures` return the validation error, whatever
the quorum keys and however many entries are cryptographically valid. -/
theorem c5_duplicate_signature_rejected (sd : StructuredData)
    (owner_keys : List PublicKey)
    (h : ¬ sd.previous_owner_signatures.Nodup) :
    sd.verify_previous_owner_signatures owner_keys = .error .validation := by
  have hd := (hasDuplicateSignature_iff_not_nodup _).mpr h
  simp [verify_previous_owner_signatures, hd]

/-- Claim C5, witness: the record `c5_sd`, which lists the same signature
twice, is rejected with the validation error. -/
theorem c5_witness :
    c5_sd.verify_previous_owner_signatures [0] = .error .validation :=
  c5_duplicate_signature_rejected c5_sd [0] (by decide)

/-- Claim C6: a successful `add_signature` appends (with no duplicate
check) the signature over the record's canonical payload and returns
`N / 2 + 1` minus the new signature count, where `N` is the size of the
authorizing quorum (`previous_owner_keys` if non-empty, else
`current_owner_keys`); the subtraction is `Nat` (saturating) subtraction,
so the result is clamped at zero; no other field changes. -/
theorem c6_add_signature_spec (sd : StructuredData) (sk : SecretKey)
    (r : Nat) (sd' : StructuredData) (h : sd.add_signature sk = .ok (r, sd')) :
    ∃ p, sd.data_to_sign = .ok p ∧
      sd'.previous_owner_signatures
        = sd.previous_owner_signatures ++ [sign_detached p sk] ∧
      r = (owner_keys_to_match sd).length / 2 + 1
            - sd'.previous_owner_signatures.length ∧
      sd'.type_tag = sd.type_tag ∧ sd'.name = sd.name ∧ sd'.data = sd.data ∧
      sd'.previous_owner_keys = sd.previous_owner_keys ∧
      sd'.version = sd.version ∧
      sd'.current_owner_keys = sd.current_owner_keys ∧
      sd'.ledger = sd.ledger := by
  simp only [add_signature, data_to_sign, Except.ok.injEq, Prod.mk.injEq] at h
  obtain ⟨hr, hsd⟩ := h
  subst hsd
  subst hr
  exact ⟨_, rfl, rfl, rfl, rfl, rfl, rfl, rfl, rfl, rfl, rfl⟩

/-- Claim C6, witness: on the three-owner record `c6_sd`, the first
signature leaves remaining-needed 1 and the second leaves 0, the state
stepping to `c6_sd1` and then `c6_sd2`. -/
theorem c6_witness :
    (∃ p, c6_sd.data_to_sign = .ok p ∧
      c6_sd1.previous_owner_signatures
        = c6_sd.previous_owner_signatures ++ [sign_detached p 10] ∧
      1 = (owner_keys_to_match c6_sd).length / 2 + 1
            - c6_sd1.previous_owner_signatures.length ∧
      c6_sd1.type_tag = c6_sd.type_tag ∧ c6_sd1.name = c6_sd.name ∧
      c6_sd1.data = c6_sd.data ∧
      c6_sd1.previous_owner_keys = c6_sd.previous_owner_keys ∧
      c6_sd1.version = c6_sd.version ∧
      c6_sd1.current_owner_keys = c6_sd.current_owner_keys ∧
      c6_sd1.ledger = c6_sd.ledger) ∧
    (∃ p, c6_sd1.data_to_sign = .ok p ∧
      c6_sd2.previous_owner_signatures
        = c6_sd1.previous_owner_signatures ++ [sign_detached p 11] ∧
      0 = (owner_keys_to_match c6_sd1).length / 2 + 1
            - c6_sd2.previous_owner_signatures.length ∧
      c6_sd2.type_tag = c6_sd1.type_tag ∧ c6_sd2.name = c6_sd1.name ∧
      c6_sd2.data = c6_sd1.data ∧
      c6_sd2.previous_owner_keys = c6_sd1.previous_owner_keys ∧
      c6_sd2.version = c6_sd1.version ∧
      c6_sd2.current_owner_keys = c6_sd1.current_owner_keys ∧
      c6_sd2.ledger = c6_sd1.ledger) :=
  ⟨c6_add_signature_spec c6_sd 10 1 c6_sd1 rfl,
   c6_add_signature_spec c6_sd1 11 0 c6_sd2 rfl⟩

/-- Claim C7: `local_name` is the identity on the stored name for
`Immutable` and `Plain` identifiers (never an error); for
`Structured(name, tag)` it is the hash of `name` concatenated with the
serialised tag whenever tag encoding succeeds (so it can fail only when
tag encoding fails), and changing only the tag changes the derived key. -/
theorem c7_local_name_spec :
    (∀ name, (DataIdentifier.Immutable name).local_name = .ok name) ∧
    (∀ name, (DataIdentifier.Plain name).local_name = .ok name) ∧
    (∀ name tag enc, serialise_tag tag = .ok enc →
      (DataIdentifier.Structured name tag).local_name
        = .ok (sha3_256 (name ++ enc))) ∧
    (∀ name t1 t2, t1 ≠ t2 →
      (DataIdentifier.Structured name t1).local_name
        ≠ (DataIdentifier.Structured name t2).local_name) := by
  refine ⟨fun name => rfl, fun name => rfl, ?_, ?_⟩
  · intro name tag enc h
    simp only [serialise_tag, Except.ok.injEq] at h
    subst h
    rfl
  · intro name t1 t2 hne heq
    simp [DataIdentifier.local_name, serialise_tag, sha3_256] at heq
    exact hne heq

/-- Claim C7, witness: the structured identifier with name `[5]` and tag 7
derives the hash of their concatenation, and tags 0 and 1 over the same
name derive different keys. -/
theorem c7_witness :
    ((DataIdentifier.Structured [5] 7).local_name
      = .ok (sha3_256 ([5] ++ [7]))) ∧
    ((DataIdentifier.Structured [] 0).local_name
      ≠ (DataIdentifier.Structured [] 1).local_name) :=
  ⟨c7_local_name_spec.2.2.1 [5] 7 [7] rfl,
   c7_local_name_spec.2.2.2 [] 0 1 (by decide)⟩

/-- Claim C8: a successful `replace_with_other` overwrites exactly the
seven fields `type_tag`, `name`, `data`, `previous_owner_keys`,
`version`, `current_owner_keys` and `previous_owner_signatures` with the
candidate's values, while the target keeps its own ledger flag. -/
theorem c8_replace_with_other_success_frame (self other : StructuredData)
    (h : (self.replace_with_other other).2 = .ok ()) :
    (self.replace_with_other other).1.type_tag = other.type_tag ∧
    (self.replace_with_other other).1.name = other.name ∧
    (self.replace_with_other other).1.data = other.data ∧
    (self.replace_with_other other).1.previous_owner_keys
      = other.previous_owner_keys ∧
    (self.replace_with_other other).1.version = other.version ∧
    (self.replace_with_other other).1.current_owner_keys
      = other.current_owner_keys ∧
    (self.replace_with_other other).1.previous_owner_signatures
      = other.previous_owner_signatures ∧
    (self.replace_with_other other).1.ledger = self.ledger := by
  cases hv : self.validate_self_against_successor other with
  | error e' => simp [replace_with_other, hv] at h
  | ok u =>
    cases u
    simp [replace_with_other, hv]

/-- Claim C8, witness: replacing `c8_self` with the valid signed successor
`c8_other` copies the seven fields and keeps `c8_self`'s ledger flag
(which differs from the candidate's). -/
theorem c8_witness :
    (c8_self.replace_with_other c8_other).1.type_tag = c8_other.type_tag ∧
    (c8_self.replace_with_other c8_other).1.name = c8_other.name ∧
    (c8_self.replace_with_other c8_other).1.data = c8_other.data ∧
    (c8_self.replace_with_other c8_other).1.previous_owner_keys
      = c8_other.previous_owner_keys ∧
    (c8_self.replace_with_other c8_other).1.version = c8_other.version ∧
    (c8_self.replace_with_other c8_other).1.current_owner_keys
      = c8_other.current_owner_keys ∧
    (c8_self.replace_with_other c8_other).1.previous_owner_signatures
      = c8_other.previous_owner_signatures ∧
    (c8_self.replace_with_other c8_other).1.ledger = c8_self.ledger :=
  c8_replace_with_other_success_frame c8_self c8_other rfl

/-- Claim C9: the canonical signing payload is a function of exactly the
six fields `type_tag`, `name`, `data`, `previous_owner_keys`,
`current_owner_keys`, `version` — two records agreeing on them produce
identical payloads whatever their signature lists or ledger flags — with
the integers carried as decimal text; and adding a signature never
changes the payload. -/
theorem c9_data_to_sign_six_fields :
    (∀ a b : StructuredData, a.type_tag = b.type_tag → a.name = b.name →
      a.data = b.data → a.previous_owner_keys = b.previous_owner_keys →
      a.current_owner_keys = b.current_owner_keys → a.version = b.version →
      a.data_to_sign = b.data_to_sign) ∧
    (∀ sd : StructuredData, ∀ p, sd.data_to_sign = .ok p →
      p.type_tag = decimalBytes sd.type_tag ∧
      p.version = decimalBytes sd.version) ∧
    (∀ sd : StructuredData, ∀ sk r sd', sd.add_signature sk = .ok (r, sd') →
      sd'.data_to_sign = sd.data_to_sign) := by
  refine ⟨?_, ?_, ?_⟩
  · intro a b h1 h2 h3 h4 h5 h6
    simp [data_to_sign, h1, h2, h3, h4, h5, h6]
  · intro sd p h
    simp only [data_to_sign, Except.ok.injEq] at h
    subst h
    exact ⟨rfl, rfl⟩
  · intro sd sk r sd' h
    simp only [add_signature, data_to_sign, Except.ok.injEq, Prod.mk.injEq] at h
    obtain ⟨-, hsd⟩ := h
    subst hsd
    rfl

/-- Claim C9, witness: `c9_a` and `c9_b` differ only in signatures and
ledger flag and sign identically, and signing `c9_a` (yielding `c9_a1`)
leaves its payload unchanged. -/
theorem c9_witness :
    c9_a.data_to_sign = c9_b.data_to_sign ∧
    c9_a1.data_to_sign = c9_a.data_to_sign :=
  ⟨c9_data_to_sign_six_fields.1 c9_a c9_b rfl rfl rfl rfl rfl rfl,
   c9_data_to_sign_six_fields.2.2 c9_a 3 0 c9_a1 rfl⟩

/-- Claim C10: against an empty quorum, `verify_previous_owner_signatures`
accepts a record with an empty signature list (both thresholds are zero);
consequently `validate_self_against_successor` accepts, with zero
signatures, a candidate whose owner-key lists are both empty against a
predecessor with empty current owner keys, given matching type tag and
name and a version step of exactly 1. -/
theorem c10_empty_quorum_accepts :
    (∀ sd : StructuredData, sd.previous_owner_signatures = [] →
      sd.verify_previous_owner_signatures [] = .ok ()) ∧
    (∀ self other : StructuredData,
      other.previous_owner_keys = [] → other.current_owner_keys = [] →
      self.current_owner_keys = [] → other.previous_owner_signatures = [] →
      other.type_tag = self.type_tag → other.name = self.name →
      other.version = self.version + 1 →
      self.validate_self_against_successor other = .ok ()) := by
  have hv : ∀ sd : StructuredData, sd.previous_owner_signatures = [] →
      sd.verify_previous_owner_signatures [] = .ok () := by
    intro sd h
    simp [verify_previous_owner_signatures, h, hasDuplicateSignature,
      data_to_sign]
  refine ⟨hv, ?_⟩
  intro self other h1 h2 h3 h4 h5 h6 h7
  have hq : owner_keys_to_match other = [] := by
    simp [owner_keys_to_match, h1, h2]
  unfold validate_self_against_successor
  rw [if_neg]
  · rw [hq]
    exact hv other h4
  · push_neg
    exact ⟨h5, h6, h7, hq.trans h3.symm⟩

/-- Claim C10, witness: the all-empty predecessor `c10_pred` accepts its
unsigned version-1 successor `c10_succ`, whose empty signature list
passes verification against the empty quorum. -/
theorem c10_witness :
    c10_succ.verify_previous_owner_signatures [] = .ok () ∧
    c10_pred.validate_self_against_successor c10_succ = .ok () :=
  ⟨c10_empty_quorum_accepts.1 c10_succ rfl,
   c10_empty_quorum_accepts.2 c10_pred c10_succ rfl rfl rfl rfl rfl rfl rfl⟩

end DataBlocks
